import Mathlib

/-!
Verification of the qpsolvers PIQP and Clarabel adapter modules
(`src/qpsolvers/solvers/piqp_.py` and `src/qpsolvers/solvers/clarabel_.py`).

The adapters are glue code around two external native solvers.  We embed the
adapters shallowly: matrices are modelled by their shape together with a flag
recording whether the value is a dense `numpy.ndarray` (the only property the
adapters inspect), vectors by lists of integers, Python exceptions by an
`Except` result, and `warnings.warn` calls by a returned list of warning
strings.  Each external solver library is a parameter (a `PiqpModel` or
`ClarabelModel` structure) supplying the attribute set of its settings object,
its success status code, and its solve function; the adapters never look
inside these, so theorems quantify over the model.
-/

set_option autoImplicit false
set_option linter.unusedVariables false

namespace QP

/-- A matrix as the adapters observe it: its shape and whether it is a dense
`numpy.ndarray` (as opposed to a `scipy.sparse` matrix).  The adapters never
read matrix entries; they only test `isinstance(·, np.ndarray)` and `shape`. -/
structure Mat where
  rows : Nat
  cols : Nat
  isDense : Bool
deriving DecidableEq

/-- `np.zeros((r, c))`: a dense ndarray of the given shape. -/
def zeros (r c : Nat) : Mat := { rows := r, cols := c, isDense := true }

/-- The Problem record: cost matrix/vector, optional inequality pair (G, h),
optional equality pair (A, b), optional bounds lb/ub.

Modelled from the spec: `problem.py` is not under `src/`; section 3 describes
Problem as an immutable bundle of exactly these eight components. -/
structure Problem where
  P : Mat
  q : List Int
  G : Option Mat := none
  h : Option (List Int) := none
  A : Option Mat := none
  b : Option (List Int) := none
  lb : Option (List Int) := none
  ub : Option (List Int) := none
deriving DecidableEq

/-- `problem.unpack()` returning the eight fields in order.

Modelled from the spec: `problem.py` is not under `src/`; both adapters start
with `P, q, G, h, A, b, lb, ub = problem.unpack()`. -/
def Problem.unpack (p : Problem) :
    Mat × List Int × Option Mat × Option (List Int) × Option Mat ×
      Option (List Int) × Option (List Int) × Option (List Int) :=
  (p.P, p.q, p.G, p.h, p.A, p.b, p.lb, p.ub)

/-- The Solution record.

Modelled from the spec: `solution.py` is not under `src/`; section 3 describes
Solution as a bundle of primal `x`, equality dual `y`, inequality dual `z`,
box dual `z_box`, a `found` boolean and opaque `extras`, constructed once per
solve call and then populated field by field as results become available, so
fields a solve does not populate keep their initial not-found/empty values. -/
structure Solution where
  found : Bool := false
  x : List Int := []
  y : List Int := []
  z : List Int := []
  z_box : List Int := []
  extras : List (String × Int) := []
deriving DecidableEq

/-- Python exceptions the adapters can propagate: the library's `ProblemError`
and `ParamError`, numpy/scipy `ValueError`, and `AttributeError` from setting
an unknown attribute on a strict settings object. -/
inductive QPError where
  | problemError (msg : String)
  | paramError (msg : String)
  | valueError (msg : String)
  | attributeError (msg : String)
deriving DecidableEq

/-- `true` iff the outcome is a raised `ProblemError`. -/
def isProblemErr {α : Type} (r : Except QPError α) : Bool :=
  match r with
  | .error (QPError.problemError _) => true
  | _ => false

/-- `true` iff the computation returned normally. -/
def exceptOk {α : Type} (r : Except QPError α) : Bool :=
  match r with
  | .ok _ => true
  | _ => false

/-- `ensure_sparse_matrices(P, G, A)`: coerce the cost and constraint matrices
to sparse column format.

Modelled from the spec: the `conversions` module is not under `src/`;
section 4.1 says sparse-only paths "coerce P, G, A to a common sparse column
format regardless of input density".  Shapes and presence are preserved; the
dense-ndarray flag is cleared. -/
def ensure_sparse_matrices (P : Mat) (G A : Option Mat) :
    Mat × Option Mat × Option Mat :=
  let toSparse : Mat → Mat := fun m => { m with isDense := false }
  (toSparse P, G.map toSparse, A.map toSparse)

/-- `setattr(settings, key, value)` on an attribute the object has: record the
assignment in the attribute/value association list. -/
def setSetting (settings : List (String × Int)) (key : String) (value : Int) :
    List (String × Int) :=
  if settings.any (fun kv => kv.1 = key) then
    settings.map (fun kv => if kv.1 = key then (key, value) else kv)
  else
    settings ++ [(key, value)]

/-! ## PIQP adapter (`src/qpsolvers/solvers/piqp_.py`) -/

/-- The PIQP backend object returned by `__select_backend`:
`piqp.DenseSolver()` or `piqp.SparseSolver()`. -/
inductive Backend where
  | dense
  | sparse
deriving DecidableEq

/-- The fields of `solver.result` the adapter reads: status, primal `x`,
equality dual `y`, inequality dual `z`, bound duals `z_lb`/`z_ub`, and the
opaque `info` diagnostic. -/
structure PiqpResult where
  status : Int
  x : List Int
  y : List Int
  z : List Int
  z_lb : List Int
  z_ub : List Int
  info : Int
deriving DecidableEq

/-- The arguments the adapter passes to `solver.setup`. -/
structure PiqpSetup where
  P : Mat
  q : List Int
  A : Mat
  b : List Int
  G : Mat
  h : List Int
  lb : Option (List Int)
  ub : Option (List Int)
deriving DecidableEq

/-- The external PIQP library as the adapter observes it: the attribute set of
its settings object, the `piqp.PIQP_SOLVED` status code, and the solve
function mapping backend, applied settings and setup arguments to a result. -/
structure PiqpModel where
  knownSettings : List String
  solvedStatus : Int
  solve : Backend → List (String × Int) → PiqpSetup → PiqpResult

/-- The warning text of `piqp_solve_problem` for an unrecognized settings key
(the `except AttributeError` branch of the options loop). -/
def undefined_setting_msg (key : String) (value : Int) : String :=
  "Received an undefined solver setting " ++ key ++ " with value " ++
    toString value

/-- The options-forwarding loop of `piqp_solve_problem` (lines 204-212):
`setattr` each key/value on `solver.settings`; an `AttributeError` (attribute
not in the settings object) is caught and, when verbose, turned into a
warning.  Returns the final settings and the warnings emitted. -/
def applyKwargs (M : PiqpModel) (verbose : Bool)
    (settings : List (String × Int)) :
    List (String × Int) → List (String × Int) × List String
  | [] => (settings, [])
  | kv :: rest =>
    if kv.1 ∈ M.knownSettings then
      applyKwargs M verbose (setSetting settings kv.1 kv.2) rest
    else
      let sw := applyKwargs M verbose settings rest
      (sw.1, (if verbose then [undefined_setting_msg kv.1 kv.2] else []) ++ sw.2)

/-- `__select_backend(backend, use_csc)` (lines 45-72): `None` picks sparse or
dense from `use_csc`; `"dense"`/`"sparse"` pick explicitly; anything else
raises `ParamError` with the offending value in the message. -/
def select_backend (backend : Option String) (use_csc : Bool) :
    Except QPError Backend :=
  match backend with
  | none => .ok (if use_csc then Backend.sparse else Backend.dense)
  | some s =>
    if s = "dense" then .ok Backend.dense
    else if s = "sparse" then .ok Backend.sparse
    else .error (QPError.paramError ("Unknown PIQP backend \"" ++ s))

/-- The `use_csc` condition of `piqp_solve_problem` (lines 189-193):
`not isinstance(P, np.ndarray) or (G is not None and not isinstance(G,
np.ndarray)) or (A is not None and not isinstance(A, np.ndarray))`. -/
def piqp_use_csc (P : Mat) (G A : Option Mat) : Bool :=
  !P.isDense ||
    (match G with | some g => !g.isDense | none => false) ||
    (match A with | some a => !a.isDense | none => false)

/-- Lines 194-195: the possibly sparse-coerced `P, G, A` used from there on. -/
def piqp_matrices (p : Problem) : Mat × Option Mat × Option Mat :=
  if piqp_use_csc p.P p.G p.A then ensure_sparse_matrices p.P p.G p.A
  else (p.P, p.G, p.A)

/-- Lines 196-200 and 213: the `solver.setup` arguments, with `None` blocks
replaced by one-row zero placeholders since PIQP does not accept `None`. -/
def piqp_setup_args (p : Problem) : PiqpSetup :=
  let n := p.q.length
  let PGA := piqp_matrices p
  { P := PGA.1
    q := p.q
    A := PGA.2.2.getD (zeros 1 n)
    b := p.b.getD [0]
    G := PGA.2.1.getD (zeros 1 n)
    h := p.h.getD [0]
    lb := p.lb
    ub := p.ub }

/-- Lines 217-230: build the Solution from the solver result.  `found` compares
the status to `piqp.PIQP_SOLVED`; `y` is taken from the result only when `A`
is None, `z` and `z_box` only when `G` is None (otherwise set empty), with
`z_box = z_ub - z_lb`. -/
def piqp_build_solution (M : PiqpModel) (p : Problem) (result : PiqpResult) :
    Solution :=
  let PGA := piqp_matrices p
  { found := decide (result.status = M.solvedStatus)
    x := result.x
    y := if PGA.2.2.isNone then result.y else []
    z := if PGA.2.1.isSome then [] else result.z
    z_box := if PGA.2.1.isSome then []
             else List.zipWith (fun u l => u - l) result.z_ub result.z_lb
    extras := [("info", result.info)] }

/-- Lines 189-231 of `piqp_solve_problem`: everything after the consistency
checks — backend selection (which can raise `ParamError`), settings
forwarding, `solver.setup`/`solver.solve`, and solution building. -/
def piqp_after_checks (M : PiqpModel) (p : Problem) (verbose : Bool)
    (backend : Option String) (kwargs : List (String × Int)) :
    Except QPError (Solution × List String) :=
  let use_csc := piqp_use_csc p.P p.G p.A
  match select_backend backend use_csc with
  | .error e => .error e
  | .ok solver =>
    let sw := applyKwargs M verbose
      [("verbose", if verbose then 1 else 0)] kwargs
    let result := M.solve solver sw.1 (piqp_setup_args p)
    .ok (piqp_build_solution M p result, sw.2)

/-- Lines 177-231 of `piqp_solve_problem`: the four G/h and A/b consistency
checks, each raising `ProblemError`, then the rest of the solve. -/
def piqp_core (M : PiqpModel) (p : Problem) (verbose : Bool)
    (backend : Option String) (kwargs : List (String × Int)) :
    Except QPError (Solution × List String) :=
  if p.G.isNone ∧ p.h.isSome then
    .error (QPError.problemError
      "Inconsistent inequalities: G is not set but h is set")
  else if p.G.isSome ∧ p.h.isNone then
    .error (QPError.problemError
      "Inconsistent inequalities: G is set but h is None")
  else if p.A.isNone ∧ p.b.isSome then
    .error (QPError.problemError
      "Inconsistent inequalities: A is not set but b is set")
  else if p.A.isSome ∧ p.b.isNone then
    .error (QPError.problemError
      "Inconsistent inequalities: A is set but b is None")
  else
    piqp_after_checks M p verbose backend kwargs

/-- `piqp_solve_problem(problem, initvals, verbose, backend, **kwargs)`
(lines 75-231): the warm-start warning (lines 174-175, emitted only when
`initvals` is given and `verbose` is set) followed by `piqp_core`.  The
Except value models raised exceptions; the list collects emitted warnings. -/
def piqp_solve_problem (M : PiqpModel) (p : Problem)
    (initvals : Option (List Int)) (verbose : Bool)
    (backend : Option String) (kwargs : List (String × Int)) :
    Except QPError (Solution × List String) :=
  let warn1 : List String :=
    if initvals.isSome && verbose then ["warm-start values are ignored by PIQP"]
    else []
  match piqp_core M p verbose backend kwargs with
  | .error e => .error e
  | .ok sw => .ok (sw.1, warn1 ++ sw.2)

/-! ## Clarabel adapter (`src/qpsolvers/solvers/clarabel_.py`) -/

/-- A cone tag of the unified Clarabel constraint system:
`clarabel.ZeroConeT(n)` for an equality block or `clarabel.NonnegativeConeT(n)`
for an inequality block. -/
inductive Cone where
  | zero (n : Nat)
  | nonneg (n : Nat)
deriving DecidableEq

/-- The fields of the Clarabel result the adapter reads: status, primal `x`,
the combined dual `z`, and the solve time. -/
structure ClarabelResult where
  status : Int
  x : List Int
  z : List Int
  solve_time : Int
deriving DecidableEq

/-- The external Clarabel.rs library as the adapter observes it: the attribute
set of `clarabel.DefaultSettings()`, the `SolverStatus.Solved` code, and the
solve function mapping `(P, q, A_stack, b_stack, cones, settings)` to a
result. -/
structure ClarabelModel where
  knownSettings : List String
  solvedStatus : Int
  solve : Mat → List Int → Mat → List Int → List Cone →
    List (String × Int) → ClarabelResult

/-- `linear_from_box_inequalities(G, h, lb, ub, use_sparse)`.

Modelled from the spec: the `conversions` module is not under `src/`;
section 4.1 says box folding appends one inequality row per set bound, signs
chosen so the combined system reads `≤` (`x ≤ ub` rows with right-hand side
`ub`, `-x ≤ -lb` rows with right-hand side `-lb`), concatenated onto the
existing `G`/`h` so the original rows come first; we place the `ub` rows
before the `lb` rows. -/
def linear_from_box_inequalities (G : Option Mat) (h : Option (List Int))
    (lb ub : Option (List Int)) (use_sparse : Bool) : Mat × List Int :=
  let nlb := (lb.map List.length).getD 0
  let nub := (ub.map List.length).getD 0
  let gRows := (G.map Mat.rows).getD 0
  let gCols :=
    match G with
    | some g => g.cols
    | none => max nlb nub
  ({ rows := gRows + nub + nlb, cols := gCols, isDense := !use_sparse },
    h.getD [] ++ (ub.getD []) ++ ((lb.getD []).map (fun t => -t)))

/-- `split_dual_linear_box(z_stacked, lb, ub)`.

Modelled from the spec: the `conversions` module is not under `src/`;
section 4.3 says the stacked inequality dual is split back into the dual of
the original inequality rows and a signed box dual with the upper-minus-lower
convention.  The box rows sit at the end of the stack in the order produced by
`linear_from_box_inequalities` (`ub` rows then `lb` rows); an `lb`-row dual
enters the signed box dual negated. -/
def split_dual_linear_box (z_stacked : List Int) (lb ub : Option (List Int)) :
    List Int × List Int :=
  let nlb := (lb.map List.length).getD 0
  let nub := (ub.map List.length).getD 0
  let m := z_stacked.length - nlb - nub
  let zub := (z_stacked.drop m).take nub
  let zlb := z_stacked.drop (m + nub)
  let z_box : List Int :=
    match lb, ub with
    | none, none => []
    | some _, none => zlb.map (fun t => -t)
    | none, some _ => zub
    | some _, some _ => List.zipWith (fun u l => u - l) zub zlb
  (z_stacked.take m, z_box)

/-- Lines 92-94 of `clarabel_solve_problem`: fold box bounds into the
inequality pair when at least one bound vector is present. -/
def clarabel_fold (G : Option Mat) (h : Option (List Int))
    (lb ub : Option (List Int)) : Option Mat × Option (List Int) :=
  if lb.isSome || ub.isSome then
    let gh := linear_from_box_inequalities G h lb ub true
    (some gh.1, some gh.2)
  else (G, h)

/-- Lines 95-105 of `clarabel_solve_problem`: build the block lists and cone
tags — the equality block `(A, b)` with a zero cone of size `b.shape[0]` when
both are present, then the inequality block `(G, h)` with a nonnegative cone
of size `h.shape[0]` when both are present. -/
def clarabel_blocks (A : Option Mat) (b : Option (List Int)) (G : Option Mat)
    (h : Option (List Int)) : List Mat × List (List Int) × List Cone :=
  let acc : List Mat × List (List Int) × List Cone := ([], [], [])
  let acc :=
    match A, b with
    | some a, some bb =>
      (acc.1 ++ [a], acc.2.1 ++ [bb], acc.2.2 ++ [Cone.zero bb.length])
    | _, _ => acc
  let acc :=
    match G, h with
    | some g, some hh =>
      (acc.1 ++ [g], acc.2.1 ++ [hh], acc.2.2 ++ [Cone.nonneg hh.length])
    | _, _ => acc
  acc

/-- Lines 109-110: forward each keyword option by `settings.__setattr__`;
`clarabel.DefaultSettings` is strict, so an unknown attribute raises
`AttributeError`, which the adapter does not catch. -/
def applyClarabelKwargs (M : ClarabelModel) (settings : List (String × Int)) :
    List (String × Int) → Except QPError (List (String × Int))
  | [] => .ok settings
  | kv :: rest =>
    if kv.1 ∈ M.knownSettings then
      applyClarabelKwargs M (setSetting settings kv.1 kv.2) rest
    else .error (QPError.attributeError kv.1)

/-- `scipy.sparse.vstack(blocks, format="csc")`: raises `ValueError` on an
empty block list, otherwise stacks the rows into one sparse matrix. -/
def vstack (mats : List Mat) : Except QPError Mat :=
  match mats with
  | [] => .error (QPError.valueError "need at least one array to concatenate")
  | m :: _ => .ok { rows := (mats.map Mat.rows).sum, cols := m.cols,
                    isDense := false }

/-- `clarabel_solve_problem(problem, initvals, verbose, **kwargs)`
(lines 48-137): sparse coercion, box folding, block stacking with cone tags,
settings forwarding, stacking (`vstack` raising on an empty block list),
solve, and solution building.  The status check at lines 123-127 is guarded
by a constant `False` and is kept as the dead branch it is; `initvals` is
never read.  The dual split at lines 130-136 takes the first `meq = A.shape[0]`
entries of the combined dual as the equality dual and passes the remainder to
`split_dual_linear_box`. -/
def clarabel_solve_problem (M : ClarabelModel) (p : Problem)
    (initvals : Option (List Int)) (verbose : Bool)
    (kwargs : List (String × Int)) :
    Except QPError (Solution × List String) :=
  let PGA := ensure_sparse_matrices p.P p.G p.A
  let Gh := clarabel_fold PGA.2.1 p.h p.lb p.ub
  let blocks := clarabel_blocks PGA.2.2 p.b Gh.1 Gh.2
  match applyClarabelKwargs M
      [("verbose", if verbose then 1 else 0)] kwargs with
  | .error e => .error e
  | .ok settings =>
    match vstack blocks.1 with
    | .error e => .error e
    | .ok A_stack =>
      let b_stack := blocks.2.1.flatten
      let result := M.solve PGA.1 p.q A_stack b_stack blocks.2.2 settings
      let sol0 : Solution :=
        { extras := [("status", result.status),
                     ("solve_time", result.solve_time)] }
      if False ∧ result.status ≠ M.solvedStatus then
        .ok (sol0, ["Clarabel.rs terminated with status " ++
                    toString result.status])
      else
        let sol1 := { sol0 with x := result.x }
        let meq := match PGA.2.2 with | some a => a.rows | none => 0
        let sol2 :=
          if meq > 0 then { sol1 with y := result.z.take meq } else sol1
        let sol3 :=
          match Gh.1 with
          | some _ =>
            let zz := split_dual_linear_box (result.z.drop meq) p.lb p.ub
            { sol2 with z := zz.1, z_box := zz.2 }
          | none => sol2
        .ok (sol3, [])

/-! ## Spec-side definitions (for refinement comparisons)

These are written from the specification's words, to be compared with the
definitions embedded from the source. -/

/-- The spec's backend auto-selection condition (sections 4.1 and 8): the
sparse-capable path is chosen iff at least one of P, G, A is present and is
not a dense ndarray. -/
def spec_sparse_path (P : Mat) (G A : Option Mat) : Bool :=
  (some P :: G :: A :: []).any fun o =>
    match o with
    | some m => !m.isDense
    | none => false

/-- The spec's equality block of the unified constraint matrix (section 4.1):
the equality matrix, present only when both A and b are set. -/
def eq_block_mats (A : Option Mat) (b : Option (List Int)) : List Mat :=
  match A, b with
  | some a, some _ => [a]
  | _, _ => []

/-- The spec's equality block of the stacked right-hand side. -/
def eq_block_vecs (A : Option Mat) (b : Option (List Int)) :
    List (List Int) :=
  match A, b with
  | some _, some bb => [bb]
  | _, _ => []

/-- The spec's inequality block of the unified constraint matrix, present
only when both G and h are set. -/
def ineq_block_mats (G : Option Mat) (h : Option (List Int)) : List Mat :=
  match G, h with
  | some g, some _ => [g]
  | _, _ => []

/-- The spec's inequality block of the stacked right-hand side. -/
def ineq_block_vecs (G : Option Mat) (h : Option (List Int)) :
    List (List Int) :=
  match G, h with
  | some _, some hh => [hh]
  | _, _ => []

/-- The row count of the equality block (the length of its stacked
right-hand-side segment), `none` when the block is absent. -/
def eq_rows (A : Option Mat) (b : Option (List Int)) : Option Nat :=
  match A, b with
  | some _, some bb => some bb.length
  | _, _ => none

/-- The row count of the inequality block, `none` when the block is absent. -/
def ineq_rows (G : Option Mat) (h : Option (List Int)) : Option Nat :=
  match G, h with
  | some _, some hh => some hh.length
  | _, _ => none

/-- The spec's cone tag list (section 4.1): a zero cone of the equality row
count followed by a nonnegative cone of the inequality row count, each
appearing only when its block is present. -/
def spec_cone_tags (meq mineq : Option Nat) : List Cone :=
  (match meq with | some n => [Cone.zero n] | none => []) ++
    (match mineq with | some n => [Cone.nonneg n] | none => [])

/-! ## Concrete instances for witnesses and counterexamples -/

/-- Concrete dense 1×1 matrix. -/
def matD11 : Mat := { rows := 1, cols := 1, isDense := true }

/-- A fixed Clarabel result returned by the constant probe model. -/
def cresProbe : ClarabelResult :=
  { status := 0, x := [1], z := [4, 5], solve_time := 9 }

/-- A concrete Clarabel library model: empty settings attribute set, success
status 1, solve constantly returning `cresProbe`. -/
def cmodelProbe : ClarabelModel :=
  { knownSettings := [], solvedStatus := 1,
    solve := fun _ _ _ _ _ _ => cresProbe }

/-- A Problem in which exactly one of {G, h} is set (G without h), with an
equality pair present. -/
def probMismatch : Problem :=
  { P := matD11, q := [0], G := some matD11, h := none,
    A := some matD11, b := some [2] }

/-- A fixed PIQP result with success status 1. -/
def presW : PiqpResult :=
  { status := 1, x := [3], y := [0], z := [0], z_lb := [0], z_ub := [0],
    info := 0 }

/-- A concrete PIQP library model: empty settings attribute set, success
status 1, solve constantly returning `presW`. -/
def pmodelW : PiqpModel :=
  { knownSettings := [], solvedStatus := 1, solve := fun _ _ _ => presW }

/-- A Problem with G set and h unset and no equality pair. -/
def probGonly : Problem :=
  { P := matD11, q := [0], G := some matD11, h := none }

/-- An unconstrained Problem: no G/h, no A/b, no bounds. -/
def probFree : Problem := { P := matD11, q := [0] }

/-- A fixed PIQP result with non-success status 0. -/
def presNS : PiqpResult :=
  { status := 0, x := [8], y := [6], z := [7], z_lb := [1], z_ub := [4],
    info := 2 }

/-- A concrete PIQP model whose solver always reports non-success. -/
def pmodelNS : PiqpModel :=
  { knownSettings := [], solvedStatus := 1, solve := fun _ _ _ => presNS }

/-- A PIQP library model that records the chosen backend in the result's
`info` diagnostic field (1 for the sparse backend, 0 for the dense one). -/
def pmodelBackendProbe : PiqpModel :=
  { knownSettings := [], solvedStatus := 1,
    solve := fun bk _ _ =>
      { status := 0, x := [], y := [], z := [], z_lb := [], z_ub := [],
        info := if bk = Backend.sparse then 1 else 0 } }

/-- A fixed PIQP result with distinct bound duals (`z_ub - z_lb = [3]`). -/
def presBox : PiqpResult :=
  { status := 1, x := [2], y := [0], z := [6], z_lb := [2], z_ub := [5],
    info := 0 }

/-- A concrete PIQP model whose solver returns `presBox`. -/
def pmodelBox : PiqpModel :=
  { knownSettings := [], solvedStatus := 1, solve := fun _ _ _ => presBox }

/-- A Problem with box bounds and an inequality pair. -/
def probBoxG : Problem :=
  { P := matD11, q := [0], G := some matD11, h := some [1],
    lb := some [0], ub := some [1] }

/-- A Problem with both an equality and an inequality pair. -/
def probEqIneq : Problem :=
  { P := matD11, q := [0], G := some matD11, h := some [1],
    A := some matD11, b := some [2] }
/-! ## Shared lemmas -/

/-- With consistent pairs, none of the four `ProblemError` checks fires. -/
lemma piqp_core_checks_pass (M : PiqpModel) (p : Problem) (v : Bool)
    (bk : Option String) (kw : List (String × Int))
    (hGh : p.G.isSome = p.h.isSome) (hAb : p.A.isSome = p.b.isSome) :
    piqp_core M p v bk kw = piqp_after_checks M p v bk kw := by
  unfold piqp_core
  cases hG : p.G <;> cases hh : p.h <;> cases hA : p.A <;> cases hb : p.b <;>
    simp_all

/-- With a mismatched pair, `piqp_core` raises a `ProblemError`. -/
lemma piqp_core_mismatch (M : PiqpModel) (p : Problem) (v : Bool)
    (bk : Option String) (kw : List (String × Int))
    (hmis : p.G.isSome ≠ p.h.isSome ∨ p.A.isSome ≠ p.b.isSome) :
    ∃ msg, piqp_core M p v bk kw = .error (QPError.problemError msg) := by
  unfold piqp_core
  cases hG : p.G <;> cases hh : p.h <;> cases hA : p.A <;> cases hb : p.b <;>
    simp_all

/-- With `backend=None`, `piqp_after_checks` always returns normally, with the
backend picked from `use_csc` and the solution built from the solve result. -/
lemma piqp_after_checks_none_eq (M : PiqpModel) (p : Problem) (v : Bool)
    (kw : List (String × Int)) :
    piqp_after_checks M p v none kw =
      .ok (piqp_build_solution M p
            (M.solve
              (if piqp_use_csc p.P p.G p.A then Backend.sparse
               else Backend.dense)
              (applyKwargs M v [("verbose", if v then 1 else 0)] kw).1
              (piqp_setup_args p)),
          (applyKwargs M v [("verbose", if v then 1 else 0)] kw).2) := rfl

/-- The only exception `applyClarabelKwargs` can raise is `AttributeError`. -/
lemma applyClarabelKwargs_error (M : ClarabelModel) :
    ∀ (kw s : List (String × Int)) (e : QPError),
      applyClarabelKwargs M s kw = .error e →
        ∃ k, e = QPError.attributeError k := by
  intro kw
  induction kw with
  | nil => intro s e h; simp [applyClarabelKwargs] at h
  | cons kv rest ih =>
    intro s e h
    by_cases hk : kv.1 ∈ M.knownSettings
    · rw [applyClarabelKwargs, if_pos hk] at h
      exact ih _ _ h
    · rw [applyClarabelKwargs, if_neg hk] at h
      refine ⟨kv.1, ?_⟩
      simpa using h.symm

/-- When every forwarded key is an attribute of the settings object,
`applyClarabelKwargs` returns normally. -/
lemma applyClarabelKwargs_ok (M : ClarabelModel) :
    ∀ (kw s : List (String × Int)),
      (∀ kv ∈ kw, kv.1 ∈ M.knownSettings) →
        ∃ st, applyClarabelKwargs M s kw = .ok st := by
  intro kw
  induction kw with
  | nil => intro s _; exact ⟨s, rfl⟩
  | cons kv rest ih =>
    intro s hkw
    have hk : kv.1 ∈ M.knownSettings := hkw kv (List.mem_cons_self kv rest)
    obtain ⟨st, hst⟩ := ih (setSetting s kv.1 kv.2)
      (fun x hx => hkw x (List.mem_cons_of_mem kv hx))
    exact ⟨st, by rw [applyClarabelKwargs, if_pos hk]; exact hst⟩

/-- The only exception `vstack` can raise is the empty-list `ValueError`. -/
lemma vstack_error (mats : List Mat) (e : QPError)
    (h : vstack mats = .error e) :
    e = QPError.valueError "need at least one array to concatenate" := by
  cases mats with
  | nil => simpa [vstack] using h.symm
  | cons m rest => simp [vstack] at h

/-- `clarabel_solve_problem` never raises `ProblemError`: its only failure
modes are a strict-settings `AttributeError` and the empty-stack
`ValueError`. -/
lemma clarabel_no_problem_error (CM : ClarabelModel) (p : Problem)
    (iv : Option (List Int)) (v : Bool) (kw : List (String × Int)) :
    isProblemErr (clarabel_solve_problem CM p iv v kw) = false := by
  unfold clarabel_solve_problem
  cases hap : applyClarabelKwargs CM [("verbose", if v then 1 else 0)] kw with
  | error e =>
    obtain ⟨k, rfl⟩ := applyClarabelKwargs_error CM kw _ e hap
    simp [isProblemErr]
  | ok settings =>
    simp only
    cases hv : vstack (clarabel_blocks (ensure_sparse_matrices p.P p.G p.A).2.2
        p.b (clarabel_fold (ensure_sparse_matrices p.P p.G p.A).2.1 p.h p.lb
          p.ub).1
        (clarabel_fold (ensure_sparse_matrices p.P p.G p.A).2.1 p.h p.lb
          p.ub).2).1 with
    | error e =>
      have := vstack_error _ e hv
      subst this
      simp [isProblemErr]
    | ok A_stack =>
      simp [isProblemErr]

/-- Every normal return of `clarabel_solve_problem` has `found = false`: the
adapter never assigns the `found` field, so it keeps its initial value. -/
lemma clarabel_ok_found_false (CM : ClarabelModel) (p : Problem)
    (iv : Option (List Int)) (v : Bool) (kw : List (String × Int))
    (sol : Solution) (w : List String)
    (hok : clarabel_solve_problem CM p iv v kw = .ok (sol, w)) :
    sol.found = false := by
  unfold clarabel_solve_problem at hok
  cases hap : applyClarabelKwargs CM [("verbose", if v then 1 else 0)] kw with
  | error e => rw [hap] at hok; cases hok
  | ok settings =>
    rw [hap] at hok
    simp only at hok
    cases hv : vstack (clarabel_blocks (ensure_sparse_matrices p.P p.G p.A).2.2
        p.b (clarabel_fold (ensure_sparse_matrices p.P p.G p.A).2.1 p.h p.lb
          p.ub).1
        (clarabel_fold (ensure_sparse_matrices p.P p.G p.A).2.1 p.h p.lb
          p.ub).2).1 with
    | error e => rw [hv] at hok; cases hok
    | ok A_stack =>
      rw [hv] at hok
      simp only [false_and, if_false] at hok
      split at hok <;> split at hok <;>
        (injection hok with hpair; injection hpair with hsol hw;
          subst hsol; rfl)

/-- Appending an unrecognized key to the forwarded options leaves the applied
settings unchanged and appends the warning exactly when verbose is set. -/
lemma applyKwargs_append_unknown (M : PiqpModel) (v : Bool) (k : String)
    (val : Int) (hk : k ∉ M.knownSettings) :
    ∀ (kw s : List (String × Int)),
      applyKwargs M v s (kw ++ [(k, val)])
        = ((applyKwargs M v s kw).1,
           (applyKwargs M v s kw).2
             ++ (if v then [undefined_setting_msg k val] else [])) := by
  intro kw
  induction kw with
  | nil =>
    intro s
    simp [applyKwargs, hk]
  | cons kv rest ih =>
    intro s
    by_cases hkv : kv.1 ∈ M.knownSettings
    · simp [applyKwargs, hkv, ih]
    · simp [applyKwargs, hkv, ih]

/-! ## Claim theorems -/

/-- C1 counterexample: on a Problem with G set and h unset,
`clarabel_solve_problem` does not raise `ProblemError` — it completes
normally, silently dropping the lone G, refuting the claim that both adapters
raise `ProblemError`. -/
theorem C1_clarabel_silent_cex :
    isProblemErr (clarabel_solve_problem cmodelProbe probMismatch none false [])
      = false
    ∧ exceptOk (clarabel_solve_problem cmodelProbe probMismatch none false [])
      = true :=
  ⟨rfl, rfl⟩

/-- C1 (amended): for every Problem in which exactly one of {G, h} or exactly
one of {A, b} is set, `piqp_solve_problem` raises `ProblemError` before
invoking the solver (the outcome is the same for every solver model), while
`clarabel_solve_problem` performs no such consistency check and never raises
`ProblemError` on any input. -/
theorem C1_pair_consistency (M : PiqpModel) (p : Problem)
    (iv : Option (List Int)) (v : Bool) (bk : Option String)
    (kw : List (String × Int))
    (hmis : p.G.isSome ≠ p.h.isSome ∨ p.A.isSome ≠ p.b.isSome) :
    isProblemErr (piqp_solve_problem M p iv v bk kw) = true
    ∧ ∀ (CM : ClarabelModel) (p2 : Problem) (iv2 : Option (List Int))
        (v2 : Bool) (kw2 : List (String × Int)),
        isProblemErr (clarabel_solve_problem CM p2 iv2 v2 kw2) = false := by
  constructor
  · obtain ⟨msg, hmsg⟩ := piqp_core_mismatch M p v bk kw hmis
    unfold piqp_solve_problem
    rw [hmsg]
    rfl
  · intro CM p2 iv2 v2 kw2
    exact clarabel_no_problem_error CM p2 iv2 v2 kw2

/-- C1 witness: the amended claim at a concrete mismatched Problem. -/
theorem C1_pair_consistency_witness :
    (probGonly.G.isSome ≠ probGonly.h.isSome
      ∨ probGonly.A.isSome ≠ probGonly.b.isSome)
    ∧ (isProblemErr (piqp_solve_problem pmodelW probGonly none false none [])
        = true
      ∧ ∀ (CM : ClarabelModel) (p2 : Problem) (iv2 : Option (List Int))
          (v2 : Bool) (kw2 : List (String × Int)),
          isProblemErr (clarabel_solve_problem CM p2 iv2 v2 kw2) = false) :=
  ⟨Or.inl (by decide),
   C1_pair_consistency pmodelW probGonly none false none []
     (Or.inl (by decide))⟩

/-- C2: whenever the wrapped PIQP solver reports a non-success status, the
PIQP adapter returns a Solution (no exception) with `found = false`, `x` as
the solver returned it and each of `y`, `z`, `z_box` either as the solver
returned it or empty; and every normal return of the Clarabel adapter — in
particular on non-success statuses, whose check is disabled — carries
`found = false`. -/
theorem C2_nonsuccess_found_false (M : PiqpModel) (CM : ClarabelModel)
    (r : PiqpResult) (hMr : M.solve = fun _ _ _ => r)
    (hr : r.status ≠ M.solvedStatus) (p : Problem)
    (hGh : p.G.isSome = p.h.isSome) (hAb : p.A.isSome = p.b.isSome)
    (iv : Option (List Int)) (v : Bool) (kw : List (String × Int)) :
    (∃ sol w, piqp_solve_problem M p iv v none kw = .ok (sol, w)
      ∧ sol.found = false ∧ sol.x = r.x
      ∧ (sol.y = r.y ∨ sol.y = []) ∧ (sol.z = r.z ∨ sol.z = [])
      ∧ (sol.z_box = List.zipWith (fun u l => u - l) r.z_ub r.z_lb
          ∨ sol.z_box = []))
    ∧ ∀ (p2 : Problem) (iv2 : Option (List Int)) (v2 : Bool)
        (kw2 : List (String × Int)) (sol : Solution) (w : List String),
        clarabel_solve_problem CM p2 iv2 v2 kw2 = .ok (sol, w) →
          sol.found = false := by
  constructor
  · unfold piqp_solve_problem
    rw [piqp_core_checks_pass M p v none kw hGh hAb,
      piqp_after_checks_none_eq, hMr]
    refine ⟨_, _, rfl, ?_, rfl, ?_, ?_, ?_⟩
    · simp [piqp_build_solution, hr]
    · by_cases hc : (piqp_matrices p).2.2.isNone <;>
        simp [piqp_build_solution, hc]
    · by_cases hc : (piqp_matrices p).2.1.isSome <;>
        simp [piqp_build_solution, hc]
    · by_cases hc : (piqp_matrices p).2.1.isSome <;>
        simp [piqp_build_solution, hc]
  · intro p2 iv2 v2 kw2 sol w hok
    exact clarabel_ok_found_false CM p2 iv2 v2 kw2 sol w hok

/-- C2 witness: the claim at a concrete Problem and a concrete solver model
that always reports non-success status 0 (success being 1). -/
theorem C2_nonsuccess_found_false_witness :
    (pmodelNS.solve = fun _ _ _ => presNS)
    ∧ presNS.status ≠ pmodelNS.solvedStatus
    ∧ probFree.G.isSome = probFree.h.isSome
    ∧ probFree.A.isSome = probFree.b.isSome
    ∧ ((∃ sol w,
          piqp_solve_problem pmodelNS probFree none false none [] = .ok (sol, w)
          ∧ sol.found = false ∧ sol.x = presNS.x
          ∧ (sol.y = presNS.y ∨ sol.y = [])
          ∧ (sol.z = presNS.z ∨ sol.z = [])
          ∧ (sol.z_box
              = List.zipWith (fun u l => u - l) presNS.z_ub presNS.z_lb
            ∨ sol.z_box = []))
      ∧ ∀ (p2 : Problem) (iv2 : Option (List Int)) (v2 : Bool)
          (kw2 : List (String × Int)) (sol : Solution) (w : List String),
          clarabel_solve_problem cmodelProbe p2 iv2 v2 kw2 = .ok (sol, w) →
            sol.found = false) :=
  ⟨rfl, by decide, rfl, rfl,
   C2_nonsuccess_found_false pmodelNS cmodelProbe presNS rfl (by decide)
     probFree rfl rfl none false []⟩

/-- C3: for every backend selector string other than "dense" and "sparse",
`__select_backend` raises `ParamError` whose message contains the offending
value literally (as a suffix), and for `None`, "dense" and "sparse" it
returns a backend without raising. -/
theorem C3_backend_selection (s : String) (u : Bool)
    (h1 : s ≠ "dense") (h2 : s ≠ "sparse") :
    (∃ pre, select_backend (some s) u
      = .error (QPError.paramError (pre ++ s)))
    ∧ exceptOk (select_backend none u) = true
    ∧ exceptOk (select_backend (some "dense") u) = true
    ∧ exceptOk (select_backend (some "sparse") u) = true := by
  refine ⟨⟨"Unknown PIQP backend \"", ?_⟩, rfl, rfl, rfl⟩
  simp [select_backend, h1, h2]

/-- C3 witness: the claim at the concrete invalid selector "foo". -/
theorem C3_backend_selection_witness :
    (("foo" : String) ≠ "dense" ∧ ("foo" : String) ≠ "sparse")
    ∧ ((∃ pre, select_backend (some "foo") false
          = .error (QPError.paramError (pre ++ "foo")))
      ∧ exceptOk (select_backend none false) = true
      ∧ exceptOk (select_backend (some "dense") false) = true
      ∧ exceptOk (select_backend (some "sparse") false) = true) :=
  ⟨⟨by decide, by decide⟩,
   C3_backend_selection "foo" false (by decide) (by decide)⟩

/-- C4: the PIQP `use_csc` condition coincides with the spec's "at least one
of P, G, A present and not a dense ndarray"; with `backend=None` the selector
returns the sparse backend exactly when `use_csc` holds; and observed through
`piqp_solve_problem` with a probe model recording the chosen backend in the
`info` diagnostic, the chosen code path is sparse iff `use_csc` holds on the
problem's P, G, A. -/
theorem C4_backend_auto (P : Mat) (G A : Option Mat) (p : Problem)
    (hGh : p.G.isSome = p.h.isSome) (hAb : p.A.isSome = p.b.isSome) :
    piqp_use_csc P G A = spec_sparse_path P G A
    ∧ select_backend none (piqp_use_csc P G A)
        = .ok (if piqp_use_csc P G A then Backend.sparse else Backend.dense)
    ∧ Except.map (fun sw => sw.1.extras)
        (piqp_solve_problem pmodelBackendProbe p none false none [])
        = .ok [("info", if piqp_use_csc p.P p.G p.A then 1 else 0)] := by
  refine ⟨?_, rfl, ?_⟩
  · cases G <;> cases A <;>
      simp [piqp_use_csc, spec_sparse_path, Bool.or_assoc]
  · unfold piqp_solve_problem
    rw [piqp_core_checks_pass pmodelBackendProbe p false none [] hGh hAb,
      piqp_after_checks_none_eq]
    cases hu : piqp_use_csc p.P p.G p.A <;>
      simp [piqp_build_solution, pmodelBackendProbe, applyKwargs, Except.map]

/-- C4 witness: the claim at a concrete dense unconstrained Problem. -/
theorem C4_backend_auto_witness :
    probFree.G.isSome = probFree.h.isSome
    ∧ probFree.A.isSome = probFree.b.isSome
    ∧ (piqp_use_csc matD11 none none = spec_sparse_path matD11 none none
      ∧ select_backend none (piqp_use_csc matD11 none none)
          = .ok (if piqp_use_csc matD11 none none then Backend.sparse
                 else Backend.dense)
      ∧ Except.map (fun sw => sw.1.extras)
          (piqp_solve_problem pmodelBackendProbe probFree none false none [])
          = .ok [("info",
                  if piqp_use_csc probFree.P probFree.G probFree.A then 1
                  else 0)]) :=
  ⟨rfl, rfl, C4_backend_auto matD11 none none probFree rfl rfl⟩

/-- C5: the block lists and cone tags built by the Clarabel adapter
(lines 95-105) coincide with the spec's description: the equality block
first, then the inequality block, with a zero cone of the equality row count
followed by a nonnegative cone of the inequality row count, each appearing
only when its pair is present. -/
theorem C5_block_stacking (A : Option Mat) (b : Option (List Int))
    (G : Option Mat) (h : Option (List Int)) :
    clarabel_blocks A b G h
      = (eq_block_mats A b ++ ineq_block_mats G h,
         eq_block_vecs A b ++ ineq_block_vecs G h,
         spec_cone_tags (eq_rows A b) (ineq_rows G h)) := by
  cases A <;> cases b <;> cases G <;> cases h <;> rfl

/-- C6: on a Problem with equality constraints (and an inequality pair), the
Clarabel adapter splits the solver's combined dual vector at the equality row
count: the first segment becomes the equality dual `y` and the remainder is
passed to the box split to produce `z` and `z_box`; the two segments
reassemble to the original dual vector. -/
theorem C6_dual_split (CM : ClarabelModel) (r : ClarabelResult)
    (hM : CM.solve = fun _ _ _ _ _ _ => r) (p : Problem)
    (iv : Option (List Int)) (v : Bool) (kw : List (String × Int))
    (hkw : kw.all (fun kv => decide (kv.1 ∈ CM.knownSettings)) = true)
    (a : Mat) (hA : p.A = some a) (hb : p.b.isSome = true)
    (hG : p.G.isSome = true) (hh : p.h.isSome = true)
    (hrows : 0 < a.rows) :
    ∃ sol w, clarabel_solve_problem CM p iv v kw = .ok (sol, w)
      ∧ sol.y = r.z.take a.rows
      ∧ (sol.z, sol.z_box)
          = split_dual_linear_box (r.z.drop a.rows) p.lb p.ub
      ∧ r.z.take a.rows ++ r.z.drop a.rows = r.z := by
  obtain ⟨bb, hbb⟩ := Option.isSome_iff_exists.mp hb
  obtain ⟨g, hg⟩ := Option.isSome_iff_exists.mp hG
  obtain ⟨hhv, hhh⟩ := Option.isSome_iff_exists.mp hh
  obtain ⟨st, hst⟩ := applyClarabelKwargs_ok CM kw
    [("verbose", if v then 1 else 0)]
    (fun kv hkv => by
      have := List.all_eq_true.mp hkw kv hkv
      simpa using this)
  unfold clarabel_solve_problem
  rw [hst]
  simp only [ensure_sparse_matrices, hA, hbb, hg, hhh, Option.map_some']
  cases hlb : p.lb <;> cases hub : p.ub <;>
    simp [clarabel_fold, clarabel_blocks, vstack, hM, hrows,
      List.take_append_drop]

/-- C6 witness: the claim at a concrete Problem with equality and inequality
pairs and a constant solver model with combined dual `[4, 5]`. -/
theorem C6_dual_split_witness :
    (cmodelProbe.solve = fun _ _ _ _ _ _ => cresProbe)
    ∧ ([] : List (String × Int)).all
        (fun kv => decide (kv.1 ∈ cmodelProbe.knownSettings)) = true
    ∧ probEqIneq.A = some matD11
    ∧ probEqIneq.b.isSome = true
    ∧ probEqIneq.G.isSome = true
    ∧ probEqIneq.h.isSome = true
    ∧ 0 < matD11.rows
    ∧ (∃ sol w,
        clarabel_solve_problem cmodelProbe probEqIneq none false [] = .ok (sol, w)
        ∧ sol.y = cresProbe.z.take matD11.rows
        ∧ (sol.z, sol.z_box)
            = split_dual_linear_box (cresProbe.z.drop matD11.rows)
                probEqIneq.lb probEqIneq.ub
        ∧ cresProbe.z.take matD11.rows ++ cresProbe.z.drop matD11.rows
            = cresProbe.z) :=
  ⟨rfl, rfl, rfl, rfl, rfl, rfl, by decide,
   C6_dual_split cmodelProbe cresProbe rfl probEqIneq none false [] rfl
     matD11 rfl rfl rfl rfl (by decide)⟩

/-- C7 (code bug): on a Problem with box bounds and an inequality pair, the
PIQP adapter sets `z_box` to the empty vector instead of the solver's
`z_ub - z_lb` (which is `[3]` for the probe result): the source's final
conditions on G are inverted, discarding the bound duals exactly when
inequality constraints are present. -/
theorem C7_zbox_dropped :
    Except.map (fun sw => sw.1.z_box)
      (piqp_solve_problem pmodelBox probBoxG none false none []) = .ok []
    ∧ List.zipWith (fun u l => u - l) presBox.z_ub presBox.z_lb = [3]
    ∧ (([] : List Int) ≠ [3]) :=
  ⟨rfl, rfl, by decide⟩

/-- C8: the warm-start guess never influences any Solution field of
`piqp_solve_problem` — for every guess, the outcome with the Solution
projected out (raised exception included) equals the outcome with
`initvals=None`; only the warning list can differ. -/
theorem C8_initvals_ignored (M : PiqpModel) (p : Problem)
    (iv : Option (List Int)) (v : Bool) (bk : Option String)
    (kw : List (String × Int)) :
    Except.map Prod.fst (piqp_solve_problem M p iv v bk kw)
      = Except.map Prod.fst (piqp_solve_problem M p none v bk kw) := by
  unfold piqp_solve_problem
  cases piqp_core M p v bk kw <;> rfl

/-- C9 counterexample: with `verbose=False`, forwarding the unrecognized
option key "bogus" completes the solve but emits no warning at all, refuting
the claim that a warning naming the key is emitted. -/
theorem C9_no_warning_cex :
    Except.map Prod.snd
      (piqp_solve_problem pmodelW probFree none false none [("bogus", 7)])
      = .ok []
    ∧ Except.map Prod.fst
        (piqp_solve_problem pmodelW probFree none false none [("bogus", 7)])
      = Except.map Prod.fst
          (piqp_solve_problem pmodelW probFree none false none []) :=
  ⟨rfl, rfl⟩

/-- C9 (amended): forwarding an option key the settings object does not
recognize leaves the solve outcome intact — it completes normally and no
Solution field differs from a run without that key — and appends a warning
naming the offending key and value exactly when `verbose` is set. -/
theorem C9_unknown_option (M : PiqpModel) (p : Problem) (v : Bool)
    (kw : List (String × Int)) (k : String) (val : Int)
    (hk : k ∉ M.knownSettings)
    (hGh : p.G.isSome = p.h.isSome) (hAb : p.A.isSome = p.b.isSome) :
    exceptOk (piqp_solve_problem M p none v none (kw ++ [(k, val)])) = true
    ∧ Except.map Prod.fst
        (piqp_solve_problem M p none v none (kw ++ [(k, val)]))
      = Except.map Prod.fst (piqp_solve_problem M p none v none kw)
    ∧ Except.map Prod.snd
        (piqp_solve_problem M p none v none (kw ++ [(k, val)]))
      = Except.map
          (fun w => w ++ (if v then [undefined_setting_msg k val] else []))
          (Except.map Prod.snd (piqp_solve_problem M p none v none kw))
    ∧ ∃ pre mid, undefined_setting_msg k val
        = pre ++ k ++ mid ++ toString val := by
  have happ := applyKwargs_append_unknown M v k val hk kw
    [("verbose", if v then 1 else 0)]
  unfold piqp_solve_problem
  rw [piqp_core_checks_pass M p v none (kw ++ [(k, val)]) hGh hAb,
    piqp_core_checks_pass M p v none kw hGh hAb,
    piqp_after_checks_none_eq, piqp_after_checks_none_eq, happ]
  exact ⟨rfl, rfl, rfl,
    ⟨"Received an undefined solver setting ", " with value ", rfl⟩⟩

/-- C9 witness: the amended claim at a concrete run with `verbose=True` and
the unrecognized key "bogus". -/
theorem C9_unknown_option_witness :
    ("bogus" ∉ pmodelW.knownSettings)
    ∧ probFree.G.isSome = probFree.h.isSome
    ∧ probFree.A.isSome = probFree.b.isSome
    ∧ (exceptOk
        (piqp_solve_problem pmodelW probFree none true none [("bogus", 7)])
        = true
      ∧ Except.map Prod.fst
          (piqp_solve_problem pmodelW probFree none true none [("bogus", 7)])
        = Except.map Prod.fst
            (piqp_solve_problem pmodelW probFree none true none [])
      ∧ Except.map Prod.snd
          (piqp_solve_problem pmodelW probFree none true none [("bogus", 7)])
        = Except.map
            (fun w => w
              ++ (if true then [undefined_setting_msg "bogus" 7] else []))
            (Except.map Prod.snd
              (piqp_solve_problem pmodelW probFree none true none []))
      ∧ ∃ pre mid, undefined_setting_msg "bogus" 7
          = pre ++ "bogus" ++ mid ++ toString (7 : Int)) :=
  ⟨by decide, rfl, rfl,
   C9_unknown_option pmodelW probFree true [] "bogus" 7 (by decide) rfl rfl⟩

/-- C10: on a Problem with no inequality pair, no equality pair and no box
bounds, the Clarabel adapter never returns a Solution: the block list is
empty and `scipy.sparse.vstack` raises its empty-list `ValueError`, so an
unconstrained QP cannot be solved through this adapter. -/
theorem C10_unconstrained_raises (M : ClarabelModel) (p : Problem)
    (iv : Option (List Int)) (v : Bool) (kw : List (String × Int))
    (hkw : kw.all (fun kv => decide (kv.1 ∈ M.knownSettings)) = true)
    (hG : p.G = none) (hh : p.h = none) (hA : p.A = none) (hb : p.b = none)
    (hlb : p.lb = none) (hub : p.ub = none) :
    clarabel_solve_problem M p iv v kw
      = .error
          (QPError.valueError "need at least one array to concatenate") := by
  obtain ⟨st, hst⟩ := applyClarabelKwargs_ok M kw
    [("verbose", if v then 1 else 0)]
    (fun kv hkv => by
      have := List.all_eq_true.mp hkw kv hkv
      simpa using this)
  unfold clarabel_solve_problem
  rw [hst]
  simp [ensure_sparse_matrices, hG, hh, hA, hb, hlb, hub, clarabel_fold,
    clarabel_blocks, vstack]

/-- C10 witness: the claim at a concrete unconstrained Problem. -/
theorem C10_unconstrained_raises_witness :
    ([] : List (String × Int)).all
      (fun kv => decide (kv.1 ∈ cmodelProbe.knownSettings)) = true
    ∧ probFree.G = none ∧ probFree.h = none ∧ probFree.A = none
    ∧ probFree.b = none ∧ probFree.lb = none ∧ probFree.ub = none
    ∧ clarabel_solve_problem cmodelProbe probFree none false []
        = .error
            (QPError.valueError "need at least one array to concatenate") :=
  ⟨rfl, rfl, rfl, rfl, rfl, rfl, rfl,
   C10_unconstrained_raises cmodelProbe probFree none false [] rfl
     rfl rfl rfl rfl rfl rfl⟩

end QP
